import Mathlib

/-!
Verification development for the real-time audio capture / VAD / pre-roll /
playback-scheduling pipeline of `GeminiLiveService`
(src: services/geminiLiveService.ts).

Audio samples are modelled as rationals, frames as lists of samples, and the
service's mutable fields as an explicit `ServiceState` record.  Each event
handler of the service (the `onaudioprocess` frame callback, the
`interrupted` branch of `handleMessage`, the audio-scheduling branch of
`handleMessage`, `setMuted`, `connect`, `disconnect`) becomes a state
transformer that also returns its externally visible emissions (audio chunks
sent to the transport, playback handles stopped, callback invocations).
-/

namespace EchoVoice

/-- A mono PCM audio frame: the `Float32Array` contents, as rationals. -/
abbrev Frame := List ℚ

/-- An outbound audio chunk as handed to `sendAudioChunk` / `createPcmBlob`:
the sample data together with the sample rate it is tagged with. -/
abbrev Chunk := Frame × ℚ

/-- Mean square of the samples (`sum += data[i]*data[i]` over the frame,
divided by `data.length`).  The source's `calculateRMS` returns
`Math.sqrt(sum / data.length)`; we keep the radicand, which is rational,
and compare squared values (see `frameIsSpeech_correct`). -/
def meanSquare (data : Frame) : ℚ :=
  ((data.map fun x => x * x).sum) / data.length

/-- The frame-level speech decision `rms > this.silenceThreshold` of the
source, expressed on squares: for a nonnegative threshold,
`sqrt(meanSquare) > t ↔ meanSquare > t*t` (proved in
`frameIsSpeech_correct`). -/
def frameIsSpeech (data : Frame) (threshold : ℚ) : Bool :=
  decide (threshold * threshold < meanSquare data)

/-- JavaScript's `Math.round` on nonnegative inputs: `⌊q + 1/2⌋`. -/
def jsRound (q : ℚ) : ℤ := ⌊q + 1 / 2⌋

/-- The `while (offsetResult < newLength)` loop of `downsampleBuffer`,
structured on the number of output samples still to produce
(`remaining = newLength - offsetResult`).  Each iteration averages the
input samples with index in `[offsetBuffer, round((offsetResult+1)*ratio))`
(clamped to the buffer length), emitting `0` for an empty bucket. -/
def downsampleLoop (buffer : Frame) ( ratio : ℚ) :
    ℕ → ℕ → ℕ → Frame
  | 0, _, _ => []
  | remaining + 1, offsetResult, offsetBuffer =>
    let nextOffsetBuffer := (jsRound (((offsetResult : ℚ) + 1) * ratio)).toNat
    let xs := (buffer.take nextOffsetBuffer).drop offsetBuffer
    let v : ℚ := if xs.length = 0 then 0 else xs.sum / xs.length
    v :: downsampleLoop buffer ratio remaining (offsetResult + 1) nextOffsetBuffer

/-- `downsampleBuffer(buffer, inputRate, outputRate = 16000)`: returns the
buffer unchanged when `outputRate >= inputRate`, otherwise block-averaging
decimation with `ratio = inputRate / outputRate` and output length
`Math.round(buffer.length / ratio)`. -/
def downsampleBuffer (buffer : Frame) (inputRate outputRate : ℚ) : Frame :=
  if inputRate ≤ outputRate then buffer
  else
    let ratio := inputRate / outputRate
    let newLength := (jsRound ((buffer.length : ℚ) / ratio)).toNat
    downsampleLoop buffer ratio newLength 0 0

/-- The average of the input samples falling in the `k`-th output bucket,
i.e. those with index in `[round(k*ratio), round((k+1)*ratio))` and inside
the buffer; `0` when the bucket is empty. -/
def bucketAverage (buffer : Frame) ( ratio : ℚ) (k : ℕ) : ℚ :=
  let lo := (jsRound ((k : ℚ) * ratio)).toNat
  let hi := (jsRound (((k : ℚ) + 1) * ratio)).toNat
  let xs := (buffer.take hi).drop lo
  if xs.length = 0 then 0 else xs.sum / xs.length

/-- The mutable fields of `GeminiLiveService` that the audio pipeline
reads and writes.  Hardware / network resources are tracked as open/closed
flags; playback sources as a list of handle identifiers. -/
structure ServiceState where
  isMuted : Bool
  silenceThreshold : ℚ
  maxPreRollFrames : ℕ
  maxSilenceFrames : ℕ
  preRollBuffer : List Frame
  isSpeechActive : Bool
  silenceFrameCount : ℕ
  nextStartTime : ℚ
  sources : List ℕ
  currentTurnId : Option ℕ
  inputCtxOpen : Bool
  outputCtxOpen : Bool
  streamOpen : Bool
  inputProcessorOpen : Bool
  volumeIntervalOn : Bool
  screenShareOn : Bool
  sessionOpen : Bool
deriving Repr, DecidableEq

/-- Field initializers of the class: muted off, threshold `0.005`,
pre-roll capacity 4 frames, hangover 8 frames, everything closed. -/
def initialState : ServiceState where
  isMuted := false
  silenceThreshold := 1 / 200
  maxPreRollFrames := 4
  maxSilenceFrames := 8
  preRollBuffer := []
  isSpeechActive := false
  silenceFrameCount := 0
  nextStartTime := 0
  sources := []
  currentTurnId := none
  inputCtxOpen := false
  outputCtxOpen := false
  streamOpen := false
  inputProcessorOpen := false
  volumeIntervalOn := false
  screenShareOn := false
  sessionOpen := false

/-- `setMuted(muted)`: just stores the flag. -/
def setMuted (s : ServiceState) (muted : Bool) : ServiceState :=
  { s with isMuted := muted }

/-- The list-level content of `addToPreRoll`: push the frame, then
`shift()` once if the length now exceeds the capacity. -/
def pushEvict (cap : ℕ) (buf : List Frame) (data : Frame) : List Frame :=
  let b := buf ++ [data]
  if cap < b.length then b.drop 1 else b

/-- `addToPreRoll(data)`: push a clone of the frame, then `shift()` once if
the length now exceeds `maxPreRollFrames`. -/
def addToPreRoll (s : ServiceState) (data : Frame) : ServiceState :=
  { s with preRollBuffer := pushEvict s.maxPreRollFrames s.preRollBuffer data }

/-- `flushPreRoll(sampleRate)`: if the buffer is empty, do nothing;
otherwise send every buffered frame (oldest first, tagged with
`sampleRate`) and empty the buffer. -/
def flushPreRoll (s : ServiceState) (sampleRate : ℚ) : ServiceState × List Chunk :=
  if s.preRollBuffer.isEmpty then (s, [])
  else ({ s with preRollBuffer := [] }, s.preRollBuffer.map fun b => (b, sampleRate))

/-- The VAD block of `onaudioprocess`, acting on the already
resampled frame and its effective rate. -/
def vadStep (s : ServiceState) (processedData : Frame) (finalRate : ℚ) :
    ServiceState × List Chunk :=
  if frameIsSpeech processedData s.silenceThreshold then
    let s1 := { s with silenceFrameCount := 0 }
    if s1.isSpeechActive then
      (s1, [(processedData, finalRate)])
    else
      let s2 := { s1 with isSpeechActive := true }
      let fl := flushPreRoll s2 finalRate
      (fl.1, fl.2 ++ [(processedData, finalRate)])
  else
    if s.isSpeechActive then
      let c := s.silenceFrameCount + 1
      if c ≤ s.maxSilenceFrames then
        ({ s with silenceFrameCount := c }, [(processedData, finalRate)])
      else
        ({ s with silenceFrameCount := c, isSpeechActive := false }, [])
    else
      (addToPreRoll s processedData, [])

/-- The fixed outbound target rate (16 kHz). -/
def targetRate : ℚ := 16000

/-- The body of the `onaudioprocess` callback after the mute gate:
`needsDownsampling = inputRate > 24000`; if so the frame processed by the
VAD block is the one decimated to 16 kHz and the effective rate is 16000,
otherwise the frame and its native rate pass through. -/
def processFrameUnmuted (s : ServiceState) (inputData : Frame) (inputRate : ℚ) :
    ServiceState × List Chunk :=
  if 24000 < inputRate then
    vadStep s (downsampleBuffer inputData inputRate targetRate) targetRate
  else
    vadStep s inputData inputRate

/-- The full `onaudioprocess` callback: `if (this.isMuted) return;`
then the unmuted pipeline. -/
def onaudioprocess (s : ServiceState) (inputData : Frame) (inputRate : ℚ) :
    ServiceState × List Chunk :=
  if s.isMuted then (s, []) else processFrameUnmuted s inputData inputRate

/-- Process a list of captured frames (each with its native rate) in order,
concatenating the chunks sent to the transport. -/
def runFrames (s : ServiceState) : List (Frame × ℚ) → ServiceState × List Chunk
  | [] => (s, [])
  | (f, r) :: rest =>
    let step := onaudioprocess s f r
    let tail := runFrames step.1 rest
    (tail.1, step.2 ++ tail.2)

/-- The fixed scheduling lead (`0.05` s) added when the schedule restarts. -/
def schedulingLead : ℚ := 1 / 20

/-- The audio-scheduling branch of `handleMessage`: at output-clock time
`now`, if `nextStartTime < now` restart the schedule at `now + 0.05`;
start the source at `nextStartTime`, advance `nextStartTime` by the buffer
duration, and add the source handle to the set.  Returns the new state and
the scheduled start time. -/
def schedulePlayback (s : ServiceState) (now duration : ℚ) (srcId : ℕ) :
    ServiceState × ℚ :=
  let start := if s.nextStartTime < now then now + schedulingLead else s.nextStartTime
  ({ s with nextStartTime := start + duration, sources := s.sources ++ [srcId] }, start)

/-- The `serverContent.interrupted` branch of `handleMessage`: stop every
source, clear the set, zero the scheduling clock, drop the in-progress
transcript turn, reset the VAD to Silent with counter 0, and empty the
pre-roll buffer.  Returns the new state and the handles stopped. -/
def handleInterrupted (s : ServiceState) : ServiceState × List ℕ :=
  ({ s with
      sources := []
      nextStartTime := 0
      currentTurnId := none
      isSpeechActive := false
      silenceFrameCount := 0
      preRollBuffer := [] },
    s.sources)

/-- `disconnect()`: stop screen share, disconnect and drop the processor,
stop the stream tracks, close both audio contexts, clear the volume timer,
stop and clear all playback sources, empty the pre-roll buffer, and drop the
session.  Every step is null-guarded in the source, so the whole body is a
total state transformer.  Returns the handles stopped. -/
def disconnect (s : ServiceState) : ServiceState × List ℕ :=
  ({ s with
      screenShareOn := false
      inputProcessorOpen := false
      streamOpen := false
      inputCtxOpen := false
      outputCtxOpen := false
      volumeIntervalOn := false
      sources := []
      preRollBuffer := []
      sessionOpen := false },
    s.sources)

/-- The possible outcomes of the `getUserMedia` step of `connect`. -/
inductive MicError
  | permissionDenied
  | noDevice
deriving Repr, DecidableEq

/-- Environment of one `connect` call: whether acquiring the microphone
succeeds or rejects with a specific cause. -/
structure ConnectEnv where
  micResult : Option MicError
deriving Repr, DecidableEq

/-- The `speechConfig` part of `ConnectConfig`. -/
structure ConnectConfig where
  silenceThreshold : Option ℚ
  preRollMs : Option ℕ
deriving Repr, DecidableEq

/-- What the caller of `connect` observes: whether the returned promise
rejects, and which error (if any) is delivered to the `onError` callback. -/
structure ConnectOutcome where
  promiseRejected : Bool
  onErrorFired : Option MicError
deriving Repr, DecidableEq

/-- The `Apply Config` block of `connect`: both fields are guarded by JS
truthiness, so a configured `0` is ignored; `maxPreRollFrames` becomes
`Math.ceil(preRollMs / 128)`. -/
def applyConfig (s : ServiceState) (cfg : ConnectConfig) : ServiceState :=
  let s1 :=
    match cfg.silenceThreshold with
    | some t => if t ≠ 0 then { s with silenceThreshold := t } else s
    | none => s
  match cfg.preRollMs with
  | some ms => if ms ≠ 0 then { s1 with maxPreRollFrames := (ms + 127) / 128 } else s1
  | none => s1

/-- `connect(config)`: opens both audio contexts, then awaits
`getUserMedia`.  On rejection, control jumps to the `catch` block, which
reports the error through the `onError` callback and returns normally —
the promise resolves and nothing acquired so far is released.  On success
the config is applied, the live session is opened and volume monitoring
starts. -/
def connect (env : ConnectEnv) (cfg : ConnectConfig) (s : ServiceState) :
    ServiceState × ConnectOutcome :=
  let s1 := { s with inputCtxOpen := true, outputCtxOpen := true }
  match env.micResult with
  | some e => (s1, { promiseRejected := false, onErrorFired := some e })
  | none =>
    let s2 := applyConfig { s1 with streamOpen := true } cfg
    ({ s2 with sessionOpen := true, volumeIntervalOn := true },
      { promiseRejected := false, onErrorFired := none })

/-- A service state in SpeechActive whose hangover allowance is exhausted:
the next silent frame makes the counter exceed `maxSilenceFrames = 8`. -/
def hangoverState : ServiceState :=
  { initialState with isSpeechActive := true, silenceFrameCount := 8 }

/-- A state captured mid-utterance (SpeechActive, nonzero silence counter)
with the microphone stream open, about to be disconnected. -/
def staleVadState : ServiceState :=
  { initialState with
      isSpeechActive := true
      silenceFrameCount := 9
      streamOpen := true }

/-- The start times produced by scheduling a sequence of inbound decoded
buffers `(arrival clock time, duration)` in order through `schedulePlayback`. -/
def scheduleStarts (s : ServiceState) : List (ℚ × ℚ) → List ℚ
  | [] => []
  | (now, d) :: rest =>
    let r := schedulePlayback s now d 0
    r.2 :: scheduleStarts r.1 rest

/-- Faster-than-real-time arrival: every buffer arrives no later than the
previously scheduled end time (the running `nextStartTime`). -/
def fastArrivals (q : ℚ) : List (ℚ × ℚ) → Bool
  | [] => true
  | (now, d) :: rest => decide (now ≤ q) && fastArrivals (q + d) rest

/-- Reference schedule under faster-than-real-time arrival: each buffer
starts exactly where the previous one ended. -/
def exactStarts : ℚ → List (ℚ × ℚ) → List ℚ
  | _, [] => []
  | q, (_, d) :: rest => q :: exactStarts (q + d) rest

/-- One externally triggered operation on the service state. -/
inductive Op where
  | frame (data : Frame) (rate : ℚ)
  | interrupted
  | schedule (now duration : ℚ) (srcId : ℕ)
  | mute (muted : Bool)
  | hangUp
  | dial (env : ConnectEnv) (cfg : ConnectConfig)

/-- The state part of each operation's effect. -/
def applyOp (s : ServiceState) : Op → ServiceState
  | Op.frame f r => (onaudioprocess s f r).1
  | Op.interrupted => (handleInterrupted s).1
  | Op.schedule now d i => (schedulePlayback s now d i).1
  | Op.mute b => setMuted s b
  | Op.hangUp => (disconnect s).1
  | Op.dial env cfg => (connect env cfg s).1

/-- The invariant of claim C10: while SpeechActive the pre-roll buffer is
empty. -/
def SpeechPreRollInv (s : ServiceState) : Prop :=
  s.isSpeechActive = true → s.preRollBuffer = []

/-! ### Justification of the squared RMS comparison -/

/-- The squared comparison used by `frameIsSpeech` agrees with the
source's `Math.sqrt(sum / len) > threshold` for the nonnegative thresholds
the service uses. -/
theorem frameIsSpeech_correct (data : Frame) (t : ℚ) (ht : 0 ≤ t) :
    frameIsSpeech data t = true
      ↔ (t : ℝ) < Real.sqrt ((meanSquare data : ℚ) : ℝ) := by
  rw [frameIsSpeech, decide_eq_true_eq,
    Real.lt_sqrt (by exact_mod_cast ht)]
  have hsq : ((t : ℝ)) ^ 2 = ((t * t : ℚ) : ℝ) := by
    push_cast
    ring
  rw [hsq]
  exact ⟨fun h => by exact_mod_cast h, fun h => by exact_mod_cast h⟩

/-! ### Lemmas about the resampler -/

theorem downsampleLoop_length (buffer : Frame) ( ratio : ℚ) :
    ∀ remaining offsetResult offsetBuffer,
      (downsampleLoop buffer ratio remaining offsetResult offsetBuffer).length = remaining := by
  intro remaining
  induction remaining with
  | zero => intro n off; rfl
  | succ m ih =>
    intro n off
    simp only [downsampleLoop, List.length_cons, ih]

theorem downsampleLoop_getD (buffer : Frame) ( ratio : ℚ) :
    ∀ remaining k offsetResult, k < remaining →
      (downsampleLoop buffer ratio remaining offsetResult
          ((jsRound ((offsetResult : ℚ) * ratio)).toNat)).getD k 0
        = bucketAverage buffer ratio (offsetResult + k) := by
  intro remaining
  induction remaining with
  | zero => intro k n hk; omega
  | succ m ih =>
    intro k n hk
    cases k with
    | zero =>
      simp only [downsampleLoop, List.getD_cons_zero, bucketAverage, Nat.add_zero]
    | succ k =>
      have hcast : ((n : ℚ) + 1) = (((n + 1 : ℕ) : ℚ)) := by push_cast; ring
      simp only [downsampleLoop, List.getD_cons_succ]
      rw [hcast, ih k (n + 1) (by omega)]
      congr 1
      omega

/-- C8.  Block-averaging decimation: for positive rates with
`R_out < R_in`, the output length is `round(N * R_out / R_in)` and the
`k`-th output sample is the average of the input samples in the `k`-th
bucket; for `R_out ≥ R_in` the input frame is returned unchanged; and a
48000-sample frame decimated from 48 kHz to 16 kHz has exactly 16000
samples. -/
theorem downsampleBuffer_spec (buffer : Frame) (inRate outRate : ℚ) :
    (0 < outRate → outRate < inRate →
      (downsampleBuffer buffer inRate outRate).length
          = (jsRound ((buffer.length : ℚ) * outRate / inRate)).toNat
      ∧ ∀ k, k < (downsampleBuffer buffer inRate outRate).length →
          (downsampleBuffer buffer inRate outRate).getD k 0
            = bucketAverage buffer (inRate / outRate) k)
    ∧ (inRate ≤ outRate → downsampleBuffer buffer inRate outRate = buffer)
    ∧ (buffer.length = 48000 →
        (downsampleBuffer buffer 48000 16000).length = 16000) := by
  refine ⟨?_, ?_, ?_⟩
  · intro h0 h1
    have hne : ¬ inRate ≤ outRate := not_le.mpr h1
    have hdiv : (buffer.length : ℚ) / (inRate / outRate)
        = (buffer.length : ℚ) * outRate / inRate := div_div_eq_mul_div _ _ _
    constructor
    · simp only [downsampleBuffer, if_neg hne, downsampleLoop_length, hdiv]
    · intro k hk
      have hk' : k < (jsRound ((buffer.length : ℚ) / (inRate / outRate))).toNat := by
        simpa only [downsampleBuffer, if_neg hne, downsampleLoop_length] using hk
      have hg := downsampleLoop_getD buffer (inRate / outRate)
        ((jsRound ((buffer.length : ℚ) / (inRate / outRate))).toNat) k 0 hk'
      have h00 : (jsRound (((0 : ℕ) : ℚ) * (inRate / outRate))).toNat = 0 := by
        have h : jsRound (((0 : ℕ) : ℚ) * (inRate / outRate)) = 0 := by
          unfold jsRound
          rw [Nat.cast_zero, zero_mul, zero_add, Int.floor_eq_iff]
          norm_num
        rw [h]
        rfl
      rw [h00, Nat.zero_add] at hg
      simpa only [downsampleBuffer, if_neg hne] using hg
  · intro h
    simp [downsampleBuffer, h]
  · intro hlen
    have hne : ¬ (48000 : ℚ) ≤ 16000 := by norm_num
    have hval : ((buffer.length : ℚ) / ((48000 : ℚ) / 16000)) = 16000 := by
      rw [hlen]; norm_num
    have hfl : jsRound (16000 : ℚ) = 16000 := by
      unfold jsRound
      rw [Int.floor_eq_iff]
      norm_num
    simp only [downsampleBuffer, if_neg hne, downsampleLoop_length, hval, hfl]
    rfl

/-- Witness for `downsampleBuffer_spec`: the hypotheses hold at the
concrete input `[1, 2, 3]` with rates 48000 → 16000, where the result is
the single bucket average `2`. -/
theorem downsampleBuffer_spec_witness :
    (downsampleBuffer [1, 2, 3] 48000 16000).length
        = (jsRound (((3 : ℕ) : ℚ) * 16000 / 48000)).toNat
    ∧ (downsampleBuffer (List.replicate 48000 0) 48000 16000).length = 16000 := by
  constructor
  · have h := (downsampleBuffer_spec [1, 2, 3] 48000 16000).1
      (by norm_num) (by norm_num)
    simpa using h.1
  · exact (downsampleBuffer_spec (List.replicate 48000 0) 48000 16000).2.2
      (by rw [List.length_replicate])

/-! ### Lemmas about the pre-roll ring buffer -/

theorem pushEvict_rtake (cap : ℕ) (l : List Frame) (f : Frame) :
    pushEvict cap (l.drop (l.length - cap)) f
      = (l ++ [f]).drop (l.length + 1 - cap) := by
  rcases lt_or_le l.length cap with hlt | hle
  · have h1 : l.length - cap = 0 := by omega
    have h2 : l.length + 1 - cap = 0 := by omega
    rw [h1, h2, List.drop_zero, List.drop_zero]
    simp only [pushEvict]
    rw [if_neg]
    simp only [List.length_append, List.length_cons, List.length_nil]
    omega
  · have hlen : (l.drop (l.length - cap)).length = cap := by
      rw [List.length_drop]; omega
    rcases Nat.eq_zero_or_pos cap with hc0 | hc1
    · subst hc0
      have hd : l.drop (l.length - 0) = [] := by
        apply List.drop_eq_nil_of_le; omega
      have h2 : (l ++ [f]).drop (l.length + 1 - 0) = [] := by
        apply List.drop_eq_nil_of_le
        simp only [List.length_append, List.length_cons, List.length_nil]
        omega
      rw [hd, h2]
      rfl
    · have hcap : cap < (l.drop (l.length - cap) ++ [f]).length := by
        simp only [List.length_append, hlen, List.length_cons, List.length_nil]
        omega
      simp only [pushEvict, if_pos hcap]
      rw [List.drop_append_of_le_length (by omega : 1 ≤ (l.drop (l.length - cap)).length)]
      rw [List.drop_drop]
      rw [List.drop_append_of_le_length (by omega : l.length + 1 - cap ≤ l.length)]
      have harith : l.length - cap + 1 = l.length + 1 - cap := by omega
      rw [harith]

theorem foldl_pushEvict (cap : ℕ) (l : List Frame) :
    l.foldl (pushEvict cap) [] = l.drop (l.length - cap) := by
  induction l using List.reverseRecOn with
  | nil => simp
  | append_singleton l f ih =>
    rw [List.foldl_append]
    simp only [List.foldl_cons, List.foldl_nil]
    rw [ih, pushEvict_rtake]
    congr 1
    simp only [List.length_append, List.length_cons, List.length_nil]

/-! ### Lemmas about the VAD state machine -/

theorem flushPreRoll_eq (s : ServiceState) (r : ℚ) :
    flushPreRoll s r
      = ({ s with preRollBuffer := [] }, s.preRollBuffer.map fun b => (b, r)) := by
  cases s with
  | mk m th cap hang buf act cnt nst src turn a b c d e f g =>
    cases buf with
    | nil => rfl
    | cons x xs => rfl

theorem vadStep_speech_start (s : ServiceState) (f : Frame) (r : ℚ)
    (hf : frameIsSpeech f s.silenceThreshold = true)
    (ha : s.isSpeechActive = false) :
    vadStep s f r
      = ({ s with silenceFrameCount := 0, isSpeechActive := true, preRollBuffer := [] },
         (s.preRollBuffer.map fun b => (b, r)) ++ [(f, r)]) := by
  simp [vadStep, hf, ha, flushPreRoll_eq]

theorem vadStep_speech_active (s : ServiceState) (f : Frame) (r : ℚ)
    (hf : frameIsSpeech f s.silenceThreshold = true)
    (ha : s.isSpeechActive = true) :
    vadStep s f r = ({ s with silenceFrameCount := 0 }, [(f, r)]) := by
  simp [vadStep, hf, ha]

theorem vadStep_silent_inactive (s : ServiceState) (f : Frame) (r : ℚ)
    (hf : frameIsSpeech f s.silenceThreshold = false)
    (ha : s.isSpeechActive = false) :
    vadStep s f r = (addToPreRoll s f, []) := by
  simp [vadStep, hf, ha]

theorem vadStep_silent_hangover (s : ServiceState) (f : Frame) (r : ℚ)
    (hf : frameIsSpeech f s.silenceThreshold = false)
    (ha : s.isSpeechActive = true)
    (hc : s.silenceFrameCount + 1 ≤ s.maxSilenceFrames) :
    vadStep s f r
      = ({ s with silenceFrameCount := s.silenceFrameCount + 1 }, [(f, r)]) := by
  simp [vadStep, hf, ha, hc]

theorem vadStep_silent_expire (s : ServiceState) (f : Frame) (r : ℚ)
    (hf : frameIsSpeech f s.silenceThreshold = false)
    (ha : s.isSpeechActive = true)
    (hc : s.maxSilenceFrames < s.silenceFrameCount + 1) :
    vadStep s f r
      = ({ s with
            silenceFrameCount := s.silenceFrameCount + 1
            isSpeechActive := false }, []) := by
  simp [vadStep, hf, ha, Nat.not_le.mpr hc]

theorem vadStep_rate (s : ServiceState) (f : Frame) (r : ℚ) :
    ∀ c ∈ (vadStep s f r).2, c.2 = r := by
  intro c hc
  cases hf : frameIsSpeech f s.silenceThreshold with
  | false =>
    cases ha : s.isSpeechActive with
    | false =>
      rw [vadStep_silent_inactive s f r hf ha] at hc
      simp at hc
    | true =>
      rcases le_or_lt (s.silenceFrameCount + 1) s.maxSilenceFrames with hle | hlt
      · rw [vadStep_silent_hangover s f r hf ha hle] at hc
        simp at hc
        rw [hc]
      · rw [vadStep_silent_expire s f r hf ha hlt] at hc
        simp at hc
  | true =>
    cases ha : s.isSpeechActive with
    | false =>
      rw [vadStep_speech_start s f r hf ha] at hc
      rcases List.mem_append.mp hc with hmem | hmem
      · rcases List.mem_map.mp hmem with ⟨b, _, hb⟩
        rw [← hb]
      · simp at hmem
        rw [hmem]
    | true =>
      rw [vadStep_speech_active s f r hf ha] at hc
      simp at hc
      rw [hc]

theorem onaudioprocess_vadStep (s : ServiceState) (f : Frame) (r : ℚ)
    (hm : s.isMuted = false) (hr : ¬ (24000 : ℚ) < r) :
    onaudioprocess s f r = vadStep s f r := by
  simp [onaudioprocess, hm, processFrameUnmuted, hr]

theorem runFrames_append (s : ServiceState) (l1 l2 : List (Frame × ℚ)) :
    runFrames s (l1 ++ l2)
      = ((runFrames (runFrames s l1).1 l2).1,
         (runFrames s l1).2 ++ (runFrames (runFrames s l1).1 l2).2) := by
  induction l1 generalizing s with
  | nil => simp [runFrames]
  | cons p rest ih =>
    obtain ⟨f, r⟩ := p
    simp only [List.cons_append, runFrames, List.append_eq]
    rw [ih]
    simp [List.append_assoc]

theorem runFrames_silent (s : ServiceState) (l : List Frame)
    (hm : s.isMuted = false) (ha : s.isSpeechActive = false)
    (hs : ∀ f ∈ l, frameIsSpeech f s.silenceThreshold = false) :
    runFrames s (l.map fun f => (f, 16000))
      = ({ s with preRollBuffer :=
            l.foldl (pushEvict s.maxPreRollFrames) s.preRollBuffer }, []) := by
  induction l generalizing s with
  | nil => rfl
  | cons f rest ih =>
    have hstep : onaudioprocess s f 16000 = (addToPreRoll s f, []) := by
      rw [onaudioprocess_vadStep s f 16000 hm (by norm_num)]
      exact vadStep_silent_inactive s f 16000 (hs f (by simp)) ha
    simp only [List.map_cons, runFrames, hstep]
    rw [ih (addToPreRoll s f) (by simpa [addToPreRoll] using hm)
      (by simpa [addToPreRoll] using ha)
      (fun g hg => by
        simpa [addToPreRoll] using hs g (List.mem_cons_of_mem f hg))]
    simp [addToPreRoll, List.foldl_cons]

/-! ### Claim theorems: VAD hangover and pre-roll -/

/-- Claim C2, counterexample: in SpeechActive with the silence counter at
the hangover limit, a silent frame transitions to Silent and is not sent —
but contrary to the claim it is NOT pushed into the pre-roll buffer: the
buffer stays empty after the transition frame. -/
theorem hangover_expiry_cex :
    (onaudioprocess hangoverState [0] 16000).1.isSpeechActive = false
    ∧ (onaudioprocess hangoverState [0] 16000).2 = []
    ∧ (onaudioprocess hangoverState [0] 16000).1.preRollBuffer = [] := by
  rw [onaudioprocess_vadStep hangoverState [0] 16000 rfl (by norm_num)]
  rw [vadStep_silent_expire hangoverState [0] 16000
    (by norm_num [frameIsSpeech, meanSquare, hangoverState, initialState]) rfl
    (by norm_num [hangoverState, initialState])]
  simp [hangoverState, initialState]

/-- Claim C2 (amended): when a silent frame makes the consecutive-silence
counter exceed the hangover limit, the VAD transitions to Silent and the
frame is neither sent to the transport nor buffered (it is dropped);
every subsequent silent frame is then pushed into the pre-roll buffer. -/
theorem hangover_expiry (s : ServiceState) (f : Frame) (r : ℚ)
    (hm : s.isMuted = false) (hr : ¬ (24000 : ℚ) < r)
    (hf : frameIsSpeech f s.silenceThreshold = false)
    (ha : s.isSpeechActive = true)
    (hc : s.maxSilenceFrames < s.silenceFrameCount + 1) :
    onaudioprocess s f r
      = ({ s with
            silenceFrameCount := s.silenceFrameCount + 1
            isSpeechActive := false }, [])
    ∧ ∀ g : Frame, frameIsSpeech g s.silenceThreshold = false →
        onaudioprocess ({ s with
            silenceFrameCount := s.silenceFrameCount + 1
            isSpeechActive := false }) g r
          = (addToPreRoll ({ s with
              silenceFrameCount := s.silenceFrameCount + 1
              isSpeechActive := false }) g, []) := by
  constructor
  · rw [onaudioprocess_vadStep s f r hm hr]
    exact vadStep_silent_expire s f r hf ha hc
  · intro g hg
    rw [onaudioprocess_vadStep _ g r (by simpa using hm) hr]
    exact vadStep_silent_inactive _ g r (by simpa using hg) rfl

/-- Witness for `hangover_expiry` at the concrete state `hangoverState`
with silent frames `[0]` at 16 kHz. -/
theorem hangover_expiry_witness :
    (onaudioprocess hangoverState [0] 16000
      = ({ hangoverState with
            silenceFrameCount := hangoverState.silenceFrameCount + 1
            isSpeechActive := false }, []))
    ∧ (onaudioprocess ({ hangoverState with
            silenceFrameCount := hangoverState.silenceFrameCount + 1
            isSpeechActive := false }) [0] 16000
      = (addToPreRoll ({ hangoverState with
            silenceFrameCount := hangoverState.silenceFrameCount + 1
            isSpeechActive := false }) [0], [])) := by
  have h := hangover_expiry hangoverState [0] 16000 rfl (by norm_num)
    (by norm_num [frameIsSpeech, meanSquare, hangoverState, initialState]) rfl
    (by norm_num [hangoverState, initialState])
  exact ⟨h.1, h.2 [0]
    (by norm_num [frameIsSpeech, meanSquare, hangoverState, initialState])⟩

/-- Claim C3: a speech frame arriving in Silent flushes the pre-roll
buffer to the transport — the `min(N, capacity)` most recent silent
frames, oldest first — followed immediately by the triggering frame, with
nothing else interleaved, and leaves the pre-roll buffer empty. -/
theorem preroll_flush_order (s : ServiceState) (l : List Frame) (g : Frame)
    (hm : s.isMuted = false) (ha : s.isSpeechActive = false)
    (hb : s.preRollBuffer = [])
    (hs : ∀ f ∈ l, frameIsSpeech f s.silenceThreshold = false)
    (hg : frameIsSpeech g s.silenceThreshold = true) :
    (runFrames s ((l ++ [g]).map fun f => (f, (16000 : ℚ)))).2
        = ((l.drop (l.length - s.maxPreRollFrames)).map fun f => (f, (16000 : ℚ)))
            ++ [(g, 16000)]
    ∧ (runFrames s ((l ++ [g]).map fun f => (f, (16000 : ℚ)))).1.preRollBuffer = []
    ∧ (runFrames s ((l ++ [g]).map fun f => (f, (16000 : ℚ)))).1.isSpeechActive
        = true := by
  have hmain : runFrames s ((l ++ [g]).map fun f => (f, (16000 : ℚ)))
      = ({ s with
            preRollBuffer := []
            isSpeechActive := true
            silenceFrameCount := 0 },
         ((l.drop (l.length - s.maxPreRollFrames)).map fun f => (f, (16000 : ℚ)))
            ++ [(g, 16000)]) := by
    rw [List.map_append, runFrames_append, runFrames_silent s l hm ha hs]
    simp only [List.map_cons, List.map_nil, runFrames]
    rw [onaudioprocess_vadStep _ g 16000 (by simpa using hm) (by norm_num)]
    rw [vadStep_speech_start _ g 16000 (by simpa using hg) (by simpa using ha)]
    simp [hb, foldl_pushEvict]
  exact ⟨by rw [hmain], by rw [hmain], by rw [hmain]⟩

/-- Witness for `preroll_flush_order`: five silent frames `[0]` then the
speech frame `[1]`, from the initial state (capacity 4). -/
theorem preroll_flush_order_witness :
    (runFrames initialState
        ((List.replicate 5 ([0] : Frame) ++ [[1]]).map fun f => (f, (16000 : ℚ)))).2
      = (((List.replicate 5 ([0] : Frame)).drop
            ((List.replicate 5 ([0] : Frame)).length
              - initialState.maxPreRollFrames)).map fun f => (f, (16000 : ℚ)))
          ++ [([1], 16000)] := by
  exact (preroll_flush_order initialState (List.replicate 5 [0]) [1] rfl rfl rfl
    (fun f hf => by
      rw [List.eq_of_mem_replicate hf]
      norm_num [frameIsSpeech, meanSquare, initialState])
    (by norm_num [frameIsSpeech, meanSquare, initialState])).1

/-! ### Claim theorems: resampling gate, mute gate, interruption -/

/-- Claim C6, counterexample: at a native rate of 24000 Hz — which exceeds
the 16 kHz target transport rate — the frame is NOT resampled and the
outbound chunk is tagged with 24000, not 16000. -/
theorem resample_gate_cex :
    (16000 : ℚ) < 24000
    ∧ (onaudioprocess initialState [1] 24000).2 = [([1], 24000)]
    ∧ ∀ c ∈ (onaudioprocess initialState [1] 24000).2, c.2 ≠ (16000 : ℚ) := by
  have hemit : (onaudioprocess initialState [1] 24000).2 = [([1], 24000)] := by
    rw [onaudioprocess_vadStep initialState [1] 24000 rfl (by norm_num)]
    rw [vadStep_speech_start initialState [1] 24000
      (by norm_num [frameIsSpeech, meanSquare, initialState]) rfl]
    simp [initialState]
  refine ⟨by norm_num, hemit, ?_⟩
  intro c hc
  rw [hemit] at hc
  simp at hc
  rw [hc]
  norm_num

/-- Claim C6 (amended): resampling is gated on the native rate exceeding
24 kHz, not the 16 kHz target: above 24 kHz the frame handed to RMS/VAD is
the 16 kHz decimation and every outbound chunk is tagged 16000; at or
below 24 kHz the frame passes through unresampled and every outbound chunk
is tagged with the native rate. -/
theorem resample_gate (s : ServiceState) (f : Frame) (r : ℚ)
    (hm : s.isMuted = false) :
    ((24000 : ℚ) < r →
      onaudioprocess s f r = vadStep s (downsampleBuffer f r 16000) 16000
      ∧ ∀ c ∈ (onaudioprocess s f r).2, c.2 = (16000 : ℚ))
    ∧ (¬ (24000 : ℚ) < r →
      onaudioprocess s f r = vadStep s f r
      ∧ ∀ c ∈ (onaudioprocess s f r).2, c.2 = r) := by
  constructor
  · intro hr
    have he : onaudioprocess s f r = vadStep s (downsampleBuffer f r 16000) 16000 := by
      simp [onaudioprocess, hm, processFrameUnmuted, hr, targetRate]
    refine ⟨he, ?_⟩
    rw [he]
    exact vadStep_rate _ _ _
  · intro hr
    have he : onaudioprocess s f r = vadStep s f r :=
      onaudioprocess_vadStep s f r hm hr
    refine ⟨he, ?_⟩
    rw [he]
    exact vadStep_rate _ _ _

/-- Witness for `resample_gate`: the unmuted initial state with a frame at
48 kHz (decimated) and at 16 kHz (passed through). -/
theorem resample_gate_witness :
    (onaudioprocess initialState [1] 48000
        = vadStep initialState (downsampleBuffer [1] 48000 16000) 16000)
    ∧ (onaudioprocess initialState [1] 16000 = vadStep initialState [1] 16000) :=
  ⟨((resample_gate initialState [1] 48000 rfl).1 (by norm_num)).1,
   ((resample_gate initialState [1] 16000 rfl).2 (by norm_num)).1⟩

/-- Claim C7: while muted the frame callback returns immediately — the
state is unchanged and nothing is emitted, whatever the frame's energy —
and after `setMuted(false)` the next frame goes through the normal unmuted
pipeline. -/
theorem mute_gate (s : ServiceState) (f : Frame) (r : ℚ) :
    (s.isMuted = true → onaudioprocess s f r = (s, []))
    ∧ (setMuted s false).isMuted = false
    ∧ onaudioprocess (setMuted s false) f r
        = processFrameUnmuted (setMuted s false) f r := by
  refine ⟨fun hm => by simp [onaudioprocess, hm], rfl, ?_⟩
  simp [onaudioprocess, setMuted]

/-- Witness for `mute_gate`: a muted session drops a loud frame without
any state change or emission. -/
theorem mute_gate_witness :
    onaudioprocess (setMuted initialState true) [1] 16000
      = (setMuted initialState true, []) :=
  (mute_gate (setMuted initialState true) [1] 16000).1 rfl

/-- Claim C4: an interruption event stops every handle in the source set
and empties it, zeroes the scheduling clock, clears the in-progress
transcript turn, resets the VAD to Silent with counter zero, empties the
pre-roll buffer, and a buffer scheduled afterwards (at a positive clock
time) starts at the current time plus the fixed lead, independent of the
pre-interruption schedule. -/
theorem interruption_clears (s : ServiceState) (now d : ℚ) (srcId : ℕ)
    (hnow : 0 < now) :
    (handleInterrupted s).2 = s.sources
    ∧ (handleInterrupted s).1.sources = []
    ∧ (handleInterrupted s).1.nextStartTime = 0
    ∧ (handleInterrupted s).1.currentTurnId = none
    ∧ (handleInterrupted s).1.isSpeechActive = false
    ∧ (handleInterrupted s).1.silenceFrameCount = 0
    ∧ (handleInterrupted s).1.preRollBuffer = []
    ∧ (schedulePlayback (handleInterrupted s).1 now d srcId).2
        = now + schedulingLead := by
  refine ⟨rfl, rfl, rfl, rfl, rfl, rfl, rfl, ?_⟩
  simp [schedulePlayback, handleInterrupted, hnow]

/-- Witness for `interruption_clears`: a state with one scheduled source
and a far-advanced clock, interrupted, then scheduling at clock time 1. -/
theorem interruption_clears_witness :
    (schedulePlayback (handleInterrupted
        { initialState with sources := [5], nextStartTime := 100 }).1 1 2 7).2
      = 1 + schedulingLead :=
  (interruption_clears { initialState with sources := [5], nextStartTime := 100 }
    1 2 7 (by norm_num)).2.2.2.2.2.2.2

/-! ### Claim theorems: playback scheduling -/

theorem scheduleStarts_fast (s : ServiceState) (l : List (ℚ × ℚ))
    (h : fastArrivals s.nextStartTime l = true) :
    scheduleStarts s l = exactStarts s.nextStartTime l := by
  induction l generalizing s with
  | nil => rfl
  | cons p rest ih =>
    obtain ⟨now, d⟩ := p
    simp only [fastArrivals, Bool.and_eq_true, decide_eq_true_eq] at h
    obtain ⟨h1, h2⟩ := h
    simp only [scheduleStarts, exactStarts, schedulePlayback]
    rw [if_neg (not_lt.mpr h1)]
    congr 1
    exact ih _ (by simpa using h2)

theorem exactStarts_getD (l : List (ℚ × ℚ)) :
    ∀ (q : ℚ) (i : ℕ), i + 1 < l.length →
      (exactStarts q l).getD (i + 1) 0
        = (exactStarts q l).getD i 0 + (l.getD i (0, 0)).2 := by
  induction l with
  | nil =>
    intro q i hi
    simp at hi
  | cons p rest ih =>
    obtain ⟨now, d⟩ := p
    intro q i hi
    cases i with
    | zero =>
      cases rest with
      | nil => simp at hi
      | cons p2 rest2 =>
        obtain ⟨n2, d2⟩ := p2
        simp [exactStarts]
    | succ i =>
      simp only [exactStarts, List.getD_cons_succ]
      exact ih (q + d) i (by simpa using hi)

/-- Claim C5: when every inbound decoded buffer arrives no later than the
previously scheduled end time, consecutive scheduled start times satisfy
`start(i) + duration(i) ≤ start(i+1)`, and the gap
`start(i+1) - (start(i) + duration(i))` never exceeds the fixed 0.05 s
lead (it is in fact zero). -/
theorem playback_gapless (s : ServiceState) (l : List (ℚ × ℚ)) (i : ℕ)
    (h : fastArrivals s.nextStartTime l = true) (hi : i + 1 < l.length) :
    (scheduleStarts s l).getD i 0 + (l.getD i (0, 0)).2
        ≤ (scheduleStarts s l).getD (i + 1) 0
    ∧ (scheduleStarts s l).getD (i + 1) 0
        - ((scheduleStarts s l).getD i 0 + (l.getD i (0, 0)).2)
      ≤ schedulingLead := by
  rw [scheduleStarts_fast s l h, exactStarts_getD l s.nextStartTime i hi]
  constructor
  · exact le_refl _
  · norm_num [schedulingLead]

/-- Witness for `playback_gapless`: two buffers `(arrival 1, duration 2)`
and `(arrival 3, duration 4)` against a schedule whose clock is at 10. -/
theorem playback_gapless_witness :
    (scheduleStarts { initialState with nextStartTime := 10 }
          [(1, 2), (3, 4)]).getD 0 0
        + (([(1, 2), (3, 4)] : List (ℚ × ℚ)).getD 0 (0, 0)).2
      ≤ (scheduleStarts { initialState with nextStartTime := 10 }
          [(1, 2), (3, 4)]).getD 1 0 :=
  (playback_gapless { initialState with nextStartTime := 10 } [(1, 2), (3, 4)] 0
    (by norm_num [fastArrivals, initialState]) (by norm_num)).1

/-! ### Claim theorems: connect failure and disconnect -/

/-- Claim C1, counterexample: when microphone permission is denied during
`connect`, the promise does NOT reject, and the input and output audio
contexts opened before the failure remain open (no teardown happens). -/
theorem connect_failure_cex :
    (connect ⟨some MicError.permissionDenied⟩ ⟨none, none⟩
        initialState).2.promiseRejected = false
    ∧ (connect ⟨some MicError.permissionDenied⟩ ⟨none, none⟩
        initialState).1.inputCtxOpen = true
    ∧ (connect ⟨some MicError.permissionDenied⟩ ⟨none, none⟩
        initialState).1.outputCtxOpen = true :=
  ⟨rfl, rfl, rfl⟩

/-- Claim C1 (amended): a failure while acquiring the microphone during
`connect` is caught: the promise resolves rather than rejecting, the
cause-specific error is delivered through the `onError` callback, and no
teardown is performed — the audio contexts opened before the failure stay
open and the rest of the state is untouched. -/
theorem connect_failure (env : ConnectEnv) (cfg : ConnectConfig)
    (s : ServiceState) (e : MicError) (h : env.micResult = some e) :
    connect env cfg s
      = ({ s with inputCtxOpen := true, outputCtxOpen := true },
         { promiseRejected := false, onErrorFired := some e }) := by
  simp [connect, h]

/-- Witness for `connect_failure`: the no-input-device cause at the
initial state. -/
theorem connect_failure_witness :
    connect ⟨some MicError.noDevice⟩ ⟨none, none⟩ initialState
      = ({ initialState with inputCtxOpen := true, outputCtxOpen := true },
         { promiseRejected := false, onErrorFired := some MicError.noDevice }) :=
  connect_failure ⟨some MicError.noDevice⟩ ⟨none, none⟩ initialState
    MicError.noDevice rfl

/-- Claim C9, counterexample: `disconnect` does NOT clear the VAD state —
disconnecting mid-utterance leaves the speech flag set and the silence
counter at its old value, contrary to the claim that the VAD is reset to
Silent with counter zero. -/
theorem disconnect_cex :
    (disconnect staleVadState).1.isSpeechActive = true
    ∧ (disconnect staleVadState).1.silenceFrameCount = 9 :=
  ⟨rfl, rfl⟩

/-- Claim C9 (amended): `disconnect` is idempotent and always succeeds
(total, and the second call changes nothing and stops nothing); it empties
the pre-roll buffer and releases every resource — microphone stream, both
audio contexts, processor node, volume timer, screen share, pending
playback sources, session — but leaves the VAD speech flag and silence
counter unchanged. -/
theorem disconnect_spec (s : ServiceState) :
    (disconnect (disconnect s).1).1 = (disconnect s).1
    ∧ (disconnect (disconnect s).1).2 = []
    ∧ (disconnect s).1.preRollBuffer = []
    ∧ (disconnect s).1.streamOpen = false
    ∧ (disconnect s).1.inputCtxOpen = false
    ∧ (disconnect s).1.outputCtxOpen = false
    ∧ (disconnect s).1.inputProcessorOpen = false
    ∧ (disconnect s).1.volumeIntervalOn = false
    ∧ (disconnect s).1.screenShareOn = false
    ∧ (disconnect s).1.sessionOpen = false
    ∧ (disconnect s).1.sources = []
    ∧ (disconnect s).1.isSpeechActive = s.isSpeechActive
    ∧ (disconnect s).1.silenceFrameCount = s.silenceFrameCount :=
  ⟨rfl, rfl, rfl, rfl, rfl, rfl, rfl, rfl, rfl, rfl, rfl, rfl, rfl⟩

/-! ### Claim theorem: the SpeechActive / pre-roll invariant -/

theorem vadStep_inv (s : ServiceState) (p : Frame) (q : ℚ)
    (h : SpeechPreRollInv s) : SpeechPreRollInv (vadStep s p q).1 := by
  cases hf : frameIsSpeech p s.silenceThreshold with
  | true =>
    cases ha : s.isSpeechActive with
    | false =>
      rw [vadStep_speech_start s p q hf ha]
      intro _
      rfl
    | true =>
      rw [vadStep_speech_active s p q hf ha]
      intro ht
      exact h ht
  | false =>
    cases ha : s.isSpeechActive with
    | false =>
      rw [vadStep_silent_inactive s p q hf ha]
      intro ht
      have ht' : s.isSpeechActive = true := ht
      rw [ha] at ht'
      cases ht'
    | true =>
      rcases le_or_lt (s.silenceFrameCount + 1) s.maxSilenceFrames with hle | hlt
      · rw [vadStep_silent_hangover s p q hf ha hle]
        intro ht
        exact h ht
      · rw [vadStep_silent_expire s p q hf ha hlt]
        intro ht
        exact absurd ht Bool.false_ne_true

theorem connect_preserves_vad (env : ConnectEnv) (cfg : ConnectConfig)
    (s : ServiceState) :
    (connect env cfg s).1.isSpeechActive = s.isSpeechActive
    ∧ (connect env cfg s).1.preRollBuffer = s.preRollBuffer := by
  obtain ⟨th, ms⟩ := cfg
  cases henv : env.micResult with
  | some e => simp [connect, henv]
  | none =>
    cases th <;> cases ms <;>
      simp [connect, henv, applyConfig] <;> split_ifs <;> simp

/-- Claim C10: the invariant "SpeechActive implies the pre-roll buffer is
empty" holds initially and is preserved by every operation — frame
callback, interruption, playback scheduling, mute toggling, disconnect and
connect — so a pre-roll flush can never emit frames captured during an
active utterance. -/
theorem speech_preroll_invariant (s : ServiceState) (op : Op) :
    SpeechPreRollInv initialState
    ∧ (SpeechPreRollInv s → SpeechPreRollInv (applyOp s op)) := by
  constructor
  · intro _
    rfl
  · intro h
    cases op with
    | frame f r =>
      by_cases hm : s.isMuted = true
      · simpa [applyOp, onaudioprocess, hm] using h
      · have hm' : s.isMuted = false := by simpa using hm
        by_cases hr : (24000 : ℚ) < r
        · have he : applyOp s (Op.frame f r)
              = (vadStep s (downsampleBuffer f r 16000) 16000).1 := by
            simp [applyOp, onaudioprocess, hm', processFrameUnmuted, hr, targetRate]
          rw [he]
          exact vadStep_inv _ _ _ h
        · have he : applyOp s (Op.frame f r) = (vadStep s f r).1 := by
            simp [applyOp, onaudioprocess, hm', processFrameUnmuted, hr]
          rw [he]
          exact vadStep_inv _ _ _ h
    | interrupted =>
      intro _
      rfl
    | schedule now d i =>
      intro ht
      exact h ht
    | mute b =>
      intro ht
      exact h ht
    | hangUp =>
      intro _
      rfl
    | dial env cfg =>
      intro ht
      have hp := connect_preserves_vad env cfg s
      have ht' : s.isSpeechActive = true := by
        rw [← hp.1]
        exact ht
      show (connect env cfg s).1.preRollBuffer = []
      rw [hp.2]
      exact h ht'

/-- Witness for `speech_preroll_invariant`: the invariant after a loud
frame processed from the initial state. -/
theorem speech_preroll_invariant_witness :
    SpeechPreRollInv (applyOp initialState (Op.frame [1] 16000)) :=
  (speech_preroll_invariant initialState (Op.frame [1] 16000)).2
    (fun _ => rfl)

end EchoVoice
